import Mathlib

/-!
# Verification of the PostGIS property-search module

Shallow embedding of `src/modules/module_09/example.py`
(class `PropertySearchModule`) and proofs about its operations.

The module issues SQL against a `properties` table.  We model the database
as a `List Property` (one entry per row) and each SQL query as a Lean
function over that list, translating the SQL operators it uses:

* `ST_GeomFromText('POINT(x y)', 4326)` — a point `(x, y)` with `x` the
  longitude and `y` the latitude; `location` stores such points.
* `ST_Distance` on planar geometry — Euclidean distance in degrees.
* `ST_DWithin g q d` — planar distance between `g` and `q` is `≤ d`;
  `NULL` geometry yields no match.
* `ST_SnapToGrid(g, 0.01)` — each coordinate rounded to the nearest
  multiple of `0.01`.
* `ROUND(x::numeric, 0)` — rounding to the nearest integer, ties away
  from zero (PostgreSQL `numeric` rounding).
* `AVG`, `COUNT(*)`, `GROUP BY`, `HAVING`, `ORDER BY`, `LIMIT` — as usual.

Coordinates and prices are modelled as exact rationals; the real-valued
`ST_Distance` appears only in specifications (the executable queries
compare squared distances, which is equivalent since `Real.sqrt` is
monotone).
-/

/-- A row of the `properties` table created by `setup_postgis_tables`.
`location` is an optional point `(lng, lat)` in degrees. -/
structure Property where
  id : Nat
  address : String
  price : Option ℚ
  bedrooms : Option Int
  bathrooms : Option ℚ
  square_feet : Option Int
  property_type : Option String
  listing_status : String
  location : Option (ℚ × ℚ)
deriving DecidableEq, Repr

/-! ## Schema initialization (`setup_postgis_tables`) -/

/-- The database schema state touched by `setup_postgis_tables`:
installed extensions, existing tables and existing indexes (by name). -/
structure Schema where
  extensions : List String
  tables : List String
  indexes : List String
deriving DecidableEq, Repr

/-- `CREATE ... IF NOT EXISTS name`: add `name` unless already present. -/
def createIfNotExists (name : String) (xs : List String) : List String :=
  if name ∈ xs then xs else name :: xs

/-- `setup_postgis_tables`: enable the `postgis` extension, create the
`properties` table and the `idx_properties_location` GIST index, each
guarded by `IF NOT EXISTS`. -/
def setup_postgis_tables (s : Schema) : Schema :=
  { extensions := createIfNotExists "postgis" s.extensions
    tables := createIfNotExists "properties" s.tables
    indexes := createIfNotExists "idx_properties_location" s.indexes }

/-! ## Connection setup (`PropertySearchModule.__init__`) -/

/-- The connection parameters passed to `psycopg2.connect`. -/
structure ConnParams where
  host : String
  database : String
  user : String
  password : String
deriving DecidableEq, Repr

/-- `os.getenv(key, default)` over an environment `env` mapping set
variables to their values. -/
def getenvD (env : String → Option String) (key default : String) : String :=
  (env key).getD default

/-- The connection parameters built in `PropertySearchModule.__init__`:
each read from the environment with the hardcoded fallback default. -/
def connectParams (env : String → Option String) : ConnParams :=
  { host := getenvD env "DB_HOST" "localhost"
    database := getenvD env "DB_NAME" "property_search"
    user := getenvD env "DB_USER" "postgres"
    password := getenvD env "DB_PASSWORD" "password" }

/-! ## Proximity search (`find_nearby_properties`) -/

/-- Squared Euclidean distance between two points, in degrees². -/
def degDistSq (p q : ℚ × ℚ) : ℚ :=
  (p.1 - q.1) ^ 2 + (p.2 - q.2) ^ 2

/-- `ST_Distance` on planar geometry: Euclidean distance in degrees. -/
noncomputable def ST_Distance (p q : ℚ × ℚ) : ℝ :=
  Real.sqrt ((degDistSq p q : ℚ) : ℝ)

/-- `ST_DWithin(location, q, d)`: the (possibly `NULL`) geometry is within
distance `d` of `q`.  Decided on squared distances: for `d ≥ 0`,
`dist ≤ d ↔ dist² ≤ d²`; for `d < 0` it never holds. -/
def dwithinB (lp : Option (ℚ × ℚ)) (q : ℚ × ℚ) (d : ℚ) : Bool :=
  match lp with
  | none => false
  | some l => decide (0 ≤ d ∧ degDistSq l q ≤ d ^ 2)

/-- The `WHERE` clause of `find_nearby_properties`:
`ST_DWithin(location, q, d) AND listing_status = 'active'`. -/
def activeWithin (q : ℚ × ℚ) (d : ℚ) (p : Property) : Bool :=
  dwithinB p.location q d && (p.listing_status == "active")

/-- Sort key of `ORDER BY distance_meters`: the squared degree distance of
the row's location to the query point (rows reaching the sort always have
a location; `none` is mapped to `0`).  Ordering by it agrees with ordering
by `ST_Distance * 111320` since both `Real.sqrt` and scaling by `111320`
are monotone. -/
def distKey (q : ℚ × ℚ) (p : Property) : ℚ :=
  match p.location with
  | some l => degDistSq l q
  | none => 0

/-- The `distance_meters` column of `find_nearby_properties`:
`ST_Distance(location, q) * 111320`, `NULL` when `location` is `NULL`. -/
noncomputable def distance_meters (q : ℚ × ℚ) (p : Property) : Option ℝ :=
  p.location.map fun l => ST_Distance l q * 111320

/-- The value of the `ORDER BY` key as a real distance in meters:
for rows with a location this is the reported `distance_meters`. -/
noncomputable def reportedDist (q : ℚ × ℚ) (p : Property) : ℝ :=
  Real.sqrt ((distKey q p : ℚ) : ℝ) * 111320

/-- `find_nearby_properties(lat, lng, radius_km)` with the query point and
the filter point generalized (the source binds the same `(lng, lat)`
parameters for both `ST_GeomFromText` occurrences; see
`find_nearby_properties`): filter by
`ST_DWithin(location, qfilter, radius_km / 111.32) AND listing_status = 'active'`,
order by `distance_meters` computed against `qdist`, `LIMIT 20`. -/
def findNearbyWith (db : List Property) (qdist qfilter : ℚ × ℚ)
    (radius_km : ℚ) : List Property :=
  ((db.filter (activeWithin qfilter (radius_km / 111.32))).insertionSort
      (fun a b => distKey qdist a ≤ distKey qdist b)).take 20

/-- `find_nearby_properties(lat, lng, radius_km)`: the query point is
`POINT(lng lat)` — longitude first — and the same point is used in the
distance expression and in the `ST_DWithin` filter.  Returns the matching
rows in query order (the SQL projects a fixed column list plus
`distance_meters`; we return whole rows, with `distance_meters` as the
derived function above). -/
def find_nearby_properties (db : List Property) (lat lng radius_km : ℚ) :
    List Property :=
  findNearbyWith db (lng, lat) (lng, lat) radius_km

/-! ## Market density analysis (`analyze_market_density`) -/

/-- One coordinate of `ST_SnapToGrid(location, 0.01)`: round to the
nearest multiple of `0.01`. -/
def snapQ (x : ℚ) : ℚ :=
  (round (x / 0.01) : ℤ) * 0.01

/-- `ST_SnapToGrid(location, 0.01)` on a point: snap both coordinates. -/
def snapToGrid (l : ℚ × ℚ) : ℚ × ℚ :=
  (snapQ l.1, snapQ l.2)

/-- `ROUND(x::numeric, 0)`: PostgreSQL numeric rounding to integer, ties
away from zero. -/
def pgRound (x : ℚ) : ℚ :=
  if 0 ≤ x then ((⌊x + 1 / 2⌋ : ℤ) : ℚ) else ((-⌊-x + 1 / 2⌋ : ℤ) : ℚ)

/-- The `WHERE` clause of the `grid_analysis` CTE:
`location IS NOT NULL AND listing_status = 'active' AND price IS NOT NULL`. -/
def densityFiltered (db : List Property) : List Property :=
  db.filter fun p =>
    p.location.isSome && (p.listing_status == "active") && p.price.isSome

/-- The `GROUP BY` key of a filtered row:
`(ST_SnapToGrid(location, 0.01), property_type)`. -/
def groupKey (p : Property) : Option ((ℚ × ℚ) × Option String) :=
  p.location.map fun l => (snapToGrid l, p.property_type)

/-- The filtered rows belonging to the group with key `k`. -/
def groupMembers (db : List Property) (k : (ℚ × ℚ) × Option String) :
    List Property :=
  (densityFiltered db).filter fun p => decide (groupKey p = some k)

/-- One row of the `grid_analysis` CTE: a grid cell/property-type group
with its member count and exact average price. -/
structure GridGroup where
  grid_cell : ℚ × ℚ
  property_count : Nat
  avg_price : ℚ
  property_type : Option String
deriving DecidableEq, Repr

/-- Sum of the (non-`NULL`) prices of a list of rows. -/
def sumPrices (ps : List Property) : ℚ :=
  (ps.filterMap Property.price).sum

/-- The `grid_analysis` CTE rows for the group with key `k`:
`COUNT(*)` and `AVG(price)` over its members (every member has a price,
so `AVG` divides the price sum by the member count). -/
def mkGroup (db : List Property) (k : (ℚ × ℚ) × Option String) : GridGroup :=
  { grid_cell := k.1
    property_count := (groupMembers db k).length
    avg_price := sumPrices (groupMembers db k) / (groupMembers db k).length
    property_type := k.2 }

/-- The `grid_analysis` CTE: group the filtered rows by
`(ST_SnapToGrid(location, 0.01), property_type)` and keep the groups with
`COUNT(*) >= 2` (`HAVING`). -/
def grid_analysis (db : List Property) : List GridGroup :=
  ((((densityFiltered db).filterMap groupKey).dedup).map (mkGroup db)).filter
    fun g => 2 ≤ g.property_count

/-- The groups in output order: `ORDER BY avg_price DESC` (on the exact,
unrounded average). -/
def densitySorted (db : List Property) : List GridGroup :=
  (grid_analysis db).insertionSort fun a b => b.avg_price ≤ a.avg_price

/-- A record returned by `analyze_market_density`: the outer `SELECT`
projects the type, the count, `ROUND(avg_price::numeric, 0)` and the
snapped cell coordinates `ST_X(grid_cell)`, `ST_Y(grid_cell)`. -/
structure DensityRow where
  property_type : Option String
  property_count : Nat
  average_price : ℚ
  center_lng : ℚ
  center_lat : ℚ
deriving DecidableEq, Repr

/-- The outer `SELECT` projection of `analyze_market_density`. -/
def projectGroup (g : GridGroup) : DensityRow :=
  { property_type := g.property_type
    property_count := g.property_count
    average_price := pgRound g.avg_price
    center_lng := g.grid_cell.1
    center_lat := g.grid_cell.2 }

/-- `analyze_market_density()`: filter, group, `HAVING COUNT(*) >= 2`,
order by unrounded average price descending, project, `LIMIT 10`. -/
def analyze_market_density (db : List Property) : List DensityRow :=
  ((densitySorted db).map projectGroup).take 10

/-! ## Concrete demo data

A small database used to instantiate the theorems below: two active condos
in the same 0.01-degree grid cell priced 100 and 101, plus a sold listing
that every query must ignore. -/

/-- An active condo at `(lng, lat) = (1, 2)` priced 100. -/
def demoProp1 : Property :=
  { id := 1, address := "1 Demo St", price := some 100, bedrooms := some 2,
    bathrooms := some 1, square_feet := some 800, property_type := some "condo",
    listing_status := "active", location := some (1, 2) }

/-- An active condo at `(lng, lat) = (1.001, 2)` priced 101; it snaps to
the same 0.01-degree grid cell as `demoProp1`. -/
def demoProp2 : Property :=
  { demoProp1 with id := 2, price := some 101, location := some (1.001, 2) }

/-- A sold condo near the others; excluded by every query. -/
def demoProp3 : Property :=
  { demoProp1 with
    id := 3
    price := some 500
    listing_status := "sold"
    location := some (1.002, 2) }

/-- The demo database. -/
def demoDb : List Property := [demoProp1, demoProp2, demoProp3]

/-! ## Helper lemmas -/

theorem dwithinB_some_iff (l q : ℚ × ℚ) (d : ℚ) :
    dwithinB (some l) q d = true ↔ ST_Distance l q ≤ ((d : ℚ) : ℝ) := by
  simp only [dwithinB, decide_eq_true_eq, ST_Distance, Real.sqrt_le_iff]
  constructor
  · rintro ⟨hd, hsq⟩
    exact ⟨by exact_mod_cast hd, by exact_mod_cast hsq⟩
  · rintro ⟨hd, hsq⟩
    exact ⟨by exact_mod_cast hd, by exact_mod_cast hsq⟩

theorem activeWithin_iff (q : ℚ × ℚ) (d : ℚ) (p : Property) :
    activeWithin q d p = true ↔
      (∃ l, p.location = some l ∧ ST_Distance l q ≤ ((d : ℚ) : ℝ)) ∧
        p.listing_status = "active" := by
  simp only [activeWithin, Bool.and_eq_true, beq_iff_eq, and_congr_left_iff]
  intro _
  cases hl : p.location with
  | none => simp [dwithinB]
  | some l => simp [dwithinB_some_iff]

theorem mem_find_nearby {db : List Property} {lat lng radius_km : ℚ} {p : Property}
    (h : p ∈ find_nearby_properties db lat lng radius_km) :
    p ∈ db ∧ activeWithin (lng, lat) (radius_km / 111.32) p = true := by
  have h1 : p ∈ (db.filter (activeWithin (lng, lat) (radius_km / 111.32))).insertionSort
      (fun a b => distKey (lng, lat) a ≤ distKey (lng, lat) b) :=
    List.mem_of_mem_take h
  have h2 : p ∈ db.filter (activeWithin (lng, lat) (radius_km / 111.32)) :=
    (List.mem_insertionSort _).1 h1
  exact ⟨List.mem_of_mem_filter h2, List.of_mem_filter h2⟩

theorem find_nearby_length_le (db : List Property) (lat lng radius_km : ℚ) :
    (find_nearby_properties db lat lng radius_km).length ≤ 20 := by
  simp only [find_nearby_properties, findNearbyWith, List.length_take]
  exact min_le_left _ _

theorem find_nearby_sorted_key (db : List Property) (lat lng radius_km : ℚ) :
    List.Sorted (fun a b => distKey (lng, lat) a ≤ distKey (lng, lat) b)
      (find_nearby_properties db lat lng radius_km) := by
  haveI : IsTotal Property (fun a b => distKey (lng, lat) a ≤ distKey (lng, lat) b) :=
    ⟨fun a b => le_total _ _⟩
  haveI : IsTrans Property (fun a b => distKey (lng, lat) a ≤ distKey (lng, lat) b) :=
    ⟨fun _ _ _ hab hbc => le_trans hab hbc⟩
  exact (List.sorted_insertionSort _ _).sublist (List.take_sublist _ _)

theorem reportedDist_eq {q : ℚ × ℚ} {p : Property} {l : ℚ × ℚ}
    (h : p.location = some l) : reportedDist q p = ST_Distance l q * 111320 := by
  simp [reportedDist, distKey, ST_Distance, h]

theorem distance_meters_eq {q : ℚ × ℚ} {p : Property} {l : ℚ × ℚ}
    (h : p.location = some l) :
    distance_meters q p = some (ST_Distance l q * 111320) := by
  simp [distance_meters, h]

theorem find_nearby_sorted_reportedDist (db : List Property) (lat lng radius_km : ℚ) :
    List.Sorted (fun a b => reportedDist (lng, lat) a ≤ reportedDist (lng, lat) b)
      (find_nearby_properties db lat lng radius_km) := by
  refine List.Pairwise.imp ?_ (find_nearby_sorted_key db lat lng radius_km)
  intro a b hab
  exact mul_le_mul_of_nonneg_right (Real.sqrt_le_sqrt (by exact_mod_cast hab))
    (by norm_num)

theorem pgRound_intCast (x : ℚ) : ∃ z : ℤ, pgRound x = (z : ℚ) := by
  unfold pgRound
  split
  · exact ⟨_, rfl⟩
  · exact ⟨_, rfl⟩

theorem pgRound_eq_round_of_nonneg {x : ℚ} (h : 0 ≤ x) :
    pgRound x = ((round x : ℤ) : ℚ) := by
  rw [pgRound, if_pos h, round_eq]

theorem abs_sub_pgRound (x : ℚ) : |x - pgRound x| ≤ 1 / 2 := by
  rw [pgRound]
  split
  · have h := abs_sub_round x
    rw [round_eq] at h
    exact h
  · have h := abs_sub_round (-x)
    rw [round_eq] at h
    calc |x - ((-⌊-x + 1 / 2⌋ : ℤ) : ℚ)| = |-(-x - ((⌊-x + 1 / 2⌋ : ℤ) : ℚ))| := by
          congr 1
          push_cast
          ring
      _ = |-x - ((⌊-x + 1 / 2⌋ : ℤ) : ℚ)| := abs_neg _
      _ ≤ 1 / 2 := h

theorem pgRound_mono {a b : ℚ} (h : a ≤ b) : pgRound a ≤ pgRound b := by
  rw [pgRound, pgRound]
  split_ifs with ha hb hb
  · exact_mod_cast Int.floor_le_floor (by linarith)
  · linarith
  · have h1 : (0 : ℤ) ≤ ⌊-a + 1 / 2⌋ := Int.floor_nonneg.mpr (by linarith)
    have h2 : (0 : ℤ) ≤ ⌊b + 1 / 2⌋ := Int.floor_nonneg.mpr (by linarith)
    exact_mod_cast le_trans (neg_nonpos.mpr h1) h2
  · have h1 : ⌊-b + 1 / 2⌋ ≤ ⌊-a + 1 / 2⌋ := Int.floor_le_floor (by linarith)
    exact_mod_cast neg_le_neg h1

theorem abs_sub_snapQ (x : ℚ) : |x - snapQ x| ≤ 1 / 200 := by
  have h := abs_sub_round (x / 0.01)
  have hx : x - snapQ x = (x / 0.01 - ((round (x / 0.01) : ℤ) : ℚ)) * 0.01 := by
    rw [snapQ, sub_mul, div_mul_cancel₀]
    norm_num
  calc |x - snapQ x| = |x / 0.01 - ((round (x / 0.01) : ℤ) : ℚ)| * |(0.01 : ℚ)| := by
        rw [hx, abs_mul]
    _ ≤ (1 / 2) * |(0.01 : ℚ)| := by
        have h001 : (0 : ℚ) ≤ |(0.01 : ℚ)| := abs_nonneg _
        exact mul_le_mul_of_nonneg_right h h001
    _ = 1 / 200 := by
        rw [abs_of_nonneg (by norm_num : (0 : ℚ) ≤ 0.01)]
        norm_num

theorem mem_groupMembers_unpack {db : List Property} {k : (ℚ × ℚ) × Option String}
    {p : Property} (h : p ∈ groupMembers db k) :
    p ∈ db ∧ p.listing_status = "active" ∧ p.price.isSome = true ∧
      p.property_type = k.2 ∧
      ∃ l, p.location = some l ∧ snapToGrid l = k.1 := by
  have h0 : p ∈ (densityFiltered db).filter (fun q => decide (groupKey q = some k)) := h
  have h12 := List.mem_filter.mp h0
  have h1 : p ∈ densityFiltered db := h12.1
  have h3 : groupKey p = some k := of_decide_eq_true h12.2
  have h4 : p ∈ db := List.mem_of_mem_filter h1
  have h5 := List.of_mem_filter h1
  simp only [Bool.and_eq_true, beq_iff_eq] at h5
  refine ⟨h4, h5.1.2, h5.2, ?_, ?_⟩
  · cases hl : p.location with
    | none => simp [groupKey, hl] at h3
    | some l =>
      simp only [groupKey, hl, Option.map_some', Option.some.injEq] at h3
      rw [← h3]
  · cases hl : p.location with
    | none => simp [groupKey, hl] at h3
    | some l =>
      simp only [groupKey, hl, Option.map_some', Option.some.injEq] at h3
      exact ⟨l, rfl, by rw [← h3]⟩

theorem mem_grid_analysis_unpack {db : List Property} {g : GridGroup}
    (h : g ∈ grid_analysis db) :
    g = mkGroup db (g.grid_cell, g.property_type) ∧ 2 ≤ g.property_count := by
  have h1 : g ∈ (((densityFiltered db).filterMap groupKey).dedup).map (mkGroup db) :=
    List.mem_of_mem_filter h
  have h2 : (2 ≤ g.property_count : Bool) = true := by
    simpa using List.of_mem_filter h
  obtain ⟨k, _, hk⟩ := List.mem_map.mp h1
  constructor
  · rw [← hk]
    rfl
  · exact of_decide_eq_true h2

theorem mem_densitySorted_iff {db : List Property} {g : GridGroup} :
    g ∈ densitySorted db ↔ g ∈ grid_analysis db :=
  List.mem_insertionSort _

theorem mem_analyze_unpack {db : List Property} {r : DensityRow}
    (h : r ∈ analyze_market_density db) :
    ∃ g, g ∈ grid_analysis db ∧ r = projectGroup g ∧ 2 ≤ g.property_count ∧
      g.grid_cell = (r.center_lng, r.center_lat) ∧
      g.property_type = r.property_type ∧
      g.property_count = r.property_count ∧
      pgRound g.avg_price = r.average_price := by
  have h1 : r ∈ (densitySorted db).map projectGroup := List.mem_of_mem_take h
  obtain ⟨g, hg, hpr⟩ := List.mem_map.mp h1
  have hga : g ∈ grid_analysis db := mem_densitySorted_iff.mp hg
  obtain ⟨-, hcount⟩ := mem_grid_analysis_unpack hga
  refine ⟨g, hga, hpr.symm, hcount, ?_, ?_, ?_, ?_⟩ <;> rw [← hpr] <;> rfl

theorem densitySorted_sorted (db : List Property) :
    List.Sorted (fun a b : GridGroup => b.avg_price ≤ a.avg_price)
      (densitySorted db) := by
  haveI : IsTotal GridGroup (fun a b : GridGroup => b.avg_price ≤ a.avg_price) :=
    ⟨fun a b => le_total _ _⟩
  haveI : IsTrans GridGroup (fun a b : GridGroup => b.avg_price ≤ a.avg_price) :=
    ⟨fun _ _ _ hab hbc => le_trans hbc hab⟩
  exact List.sorted_insertionSort _ _

theorem createIfNotExists_idem (n : String) (xs : List String) :
    createIfNotExists n (createIfNotExists n xs) = createIfNotExists n xs := by
  by_cases h : n ∈ xs
  · simp [createIfNotExists, h]
  · simp [createIfNotExists, h]

theorem createIfNotExists_nodup {n : String} {xs : List String}
    (h : xs.Nodup) : (createIfNotExists n xs).Nodup := by
  rw [createIfNotExists]
  split_ifs with hm
  · exact h
  · exact List.nodup_cons.mpr ⟨hm, h⟩

/-! ## Claim theorems -/

/-- Claim C7: `setup_postgis_tables` is idempotent on the schema — a second
call from any state produced by a first call changes nothing, and the
`IF NOT EXISTS` guards never create a duplicate table, index or
extension entry. -/
theorem setup_postgis_tables_idempotent (s : Schema) :
    setup_postgis_tables (setup_postgis_tables s) = setup_postgis_tables s ∧
    (s.tables.Nodup → (setup_postgis_tables s).tables.Nodup) ∧
    (s.indexes.Nodup → (setup_postgis_tables s).indexes.Nodup) ∧
    (s.extensions.Nodup → (setup_postgis_tables s).extensions.Nodup) := by
  refine ⟨?_, fun h => createIfNotExists_nodup h, fun h => createIfNotExists_nodup h,
    fun h => createIfNotExists_nodup h⟩
  simp [setup_postgis_tables, createIfNotExists_idem]

/-- Claim C7 witness: running setup twice from the empty schema equals
running it once, and the resulting table list has no duplicates. -/
theorem setup_postgis_tables_idempotent_witness :
    setup_postgis_tables (setup_postgis_tables (Schema.mk [] [] []))
        = setup_postgis_tables (Schema.mk [] [] []) ∧
    (setup_postgis_tables (Schema.mk [] [] [])).tables.Nodup :=
  ⟨(setup_postgis_tables_idempotent (Schema.mk [] [] [])).1,
    (setup_postgis_tables_idempotent (Schema.mk [] [] [])).2.1 (by simp)⟩

/-- Claim C8: on an empty `properties` table, both query operations return
an empty result list (and, being total functions, raise no error). -/
theorem empty_db_empty_results (lat lng radius_km : ℚ) :
    find_nearby_properties [] lat lng radius_km = [] ∧
    analyze_market_density [] = [] :=
  ⟨rfl, rfl⟩

/-- Claim C8 witness: instantiated at the demo coordinates. -/
theorem empty_db_empty_results_witness :
    find_nearby_properties [] 37.7749 (-122.4194) 3 = [] ∧
    analyze_market_density [] = [] :=
  empty_db_empty_results 37.7749 (-122.4194) 3

/-- Claim C9: the connection uses `DB_HOST`, `DB_NAME`, `DB_USER`,
`DB_PASSWORD` from the environment, with defaults `localhost`,
`property_search`, `postgres`, `password` exactly when unset. -/
theorem connectParams_env_defaults (env : String → Option String) :
    ((env "DB_HOST" = none → (connectParams env).host = "localhost") ∧
      ∀ v, env "DB_HOST" = some v → (connectParams env).host = v) ∧
    ((env "DB_NAME" = none → (connectParams env).database = "property_search") ∧
      ∀ v, env "DB_NAME" = some v → (connectParams env).database = v) ∧
    ((env "DB_USER" = none → (connectParams env).user = "postgres") ∧
      ∀ v, env "DB_USER" = some v → (connectParams env).user = v) ∧
    ((env "DB_PASSWORD" = none → (connectParams env).password = "password") ∧
      ∀ v, env "DB_PASSWORD" = some v → (connectParams env).password = v) := by
  refine ⟨⟨fun h => ?_, fun v h => ?_⟩, ⟨fun h => ?_, fun v h => ?_⟩,
    ⟨fun h => ?_, fun v h => ?_⟩, ⟨fun h => ?_, fun v h => ?_⟩⟩ <;>
    simp [connectParams, getenvD, h]

/-- Claim C9 witness: with an empty environment all four defaults are
used; with a fully set environment the set values are used. -/
theorem connectParams_env_defaults_witness :
    connectParams (fun _ => none)
        = ConnParams.mk "localhost" "property_search" "postgres" "password" ∧
    (connectParams (fun k => some (String.append "v-" k))).host = "v-DB_HOST" := by
  have h := connectParams_env_defaults (fun _ => none)
  have h2 := (connectParams_env_defaults
      (fun k => some (String.append "v-" k))).1.2 "v-DB_HOST" rfl
  refine ⟨?_, h2⟩
  have h1 := h.1.1 rfl
  have hn := h.2.1.1 rfl
  have hu := h.2.2.1.1 rfl
  have hp := h.2.2.2.1 rfl
  cases hc : connectParams (fun _ => none)
  rw [hc] at h1 hn hu hp
  simp_all

/-- Claim C3: for every database state and call, `find_nearby_properties`
returns at most 20 rows, every returned row has a location within the
approximated radius (`ST_Distance` to the query point at most
`radius_km / 111.32` degrees), and the rows are ordered by non-decreasing
computed distance (`ST_Distance * 111320`). -/
theorem find_nearby_card_within_sorted (db : List Property)
    (lat lng radius_km : ℚ) :
    (find_nearby_properties db lat lng radius_km).length ≤ 20 ∧
    (∀ p ∈ find_nearby_properties db lat lng radius_km,
      ∃ l, p.location = some l ∧
        ST_Distance l (lng, lat) ≤ ((radius_km / 111.32 : ℚ) : ℝ)) ∧
    List.Sorted (fun a b => reportedDist (lng, lat) a ≤ reportedDist (lng, lat) b)
      (find_nearby_properties db lat lng radius_km) := by
  refine ⟨find_nearby_length_le db lat lng radius_km, fun p hp => ?_,
    find_nearby_sorted_reportedDist db lat lng radius_km⟩
  obtain ⟨-, hact⟩ := mem_find_nearby hp
  obtain ⟨⟨l, hl, hd⟩, -⟩ := (activeWithin_iff _ _ _).mp hact
  exact ⟨l, hl, hd⟩

/-- Claim C3 witness: instantiated on the demo database; the second demo
row is returned and lies within the approximated 5 km radius. -/
theorem find_nearby_card_within_sorted_witness :
    (find_nearby_properties demoDb 2 1 5).length ≤ 20 ∧
    (∃ l, demoProp2.location = some l ∧
      ST_Distance l (1, 2) ≤ ((5 / 111.32 : ℚ) : ℝ)) := by
  refine ⟨(find_nearby_card_within_sorted demoDb 2 1 5).1,
    (find_nearby_card_within_sorted demoDb 2 1 5).2.1 demoProp2 ?_⟩
  have e : find_nearby_properties demoDb 2 1 5 = [demoProp1, demoProp2] := by
    with_unfolding_all rfl
  rw [e]
  simp

/-- Claim C4: no row returned by `find_nearby_properties` has a
`listing_status` different from `active`. -/
theorem find_nearby_only_active (db : List Property) (lat lng radius_km : ℚ) :
    ∀ p ∈ find_nearby_properties db lat lng radius_km,
      p.listing_status = "active" := by
  intro p hp
  obtain ⟨-, hact⟩ := mem_find_nearby hp
  exact ((activeWithin_iff _ _ _).mp hact).2

/-- Claim C4 witness: the first demo row is returned (while the sold row
`demoProp3` is not in the result at all) and its status is `active`. -/
theorem find_nearby_only_active_witness :
    demoProp1 ∈ find_nearby_properties demoDb 2 1 5 ∧
    demoProp1.listing_status = "active" := by
  have e : find_nearby_properties demoDb 2 1 5 = [demoProp1, demoProp2] := by
    with_unfolding_all rfl
  have hm : demoProp1 ∈ find_nearby_properties demoDb 2 1 5 := by
    rw [e]
    simp
  exact ⟨hm, find_nearby_only_active demoDb 2 1 5 demoProp1 hm⟩

/-- Claim C5: each returned row's `distance_meters` is the planar degree
distance to the query point times exactly `111320`, and the `ST_DWithin`
filter accepts a located row exactly when it is active and its planar
degree distance is at most `radius_km / 111.32` — the two fixed
approximation constants, applied symmetrically. -/
theorem find_nearby_distance_constants (db : List Property)
    (lat lng radius_km : ℚ) :
    (∀ p ∈ find_nearby_properties db lat lng radius_km,
      ∃ l, p.location = some l ∧
        distance_meters (lng, lat) p = some (ST_Distance l (lng, lat) * 111320) ∧
        ST_Distance l (lng, lat) ≤ ((radius_km / 111.32 : ℚ) : ℝ)) ∧
    (∀ (q : Property) (l : ℚ × ℚ), q.location = some l →
      (activeWithin (lng, lat) (radius_km / 111.32) q = true ↔
        q.listing_status = "active" ∧
          ST_Distance l (lng, lat) ≤ ((radius_km / 111.32 : ℚ) : ℝ))) := by
  constructor
  · intro p hp
    obtain ⟨-, hact⟩ := mem_find_nearby hp
    obtain ⟨⟨l, hl, hd⟩, -⟩ := (activeWithin_iff _ _ _).mp hact
    exact ⟨l, hl, distance_meters_eq hl, hd⟩
  · intro q l hl
    rw [activeWithin_iff]
    constructor
    · rintro ⟨⟨m, hm, hdm⟩, hs⟩
      rw [hl] at hm
      cases hm
      exact ⟨hs, hdm⟩
    · rintro ⟨hs, hd⟩
      exact ⟨⟨l, hl, hd⟩, hs⟩

/-- Claim C5 witness: for the first demo row the reported distance is
`ST_Distance ((1,2), (1,2)) * 111320` and the filter accepts the demo
rows per the threshold `5 / 111.32`. -/
theorem find_nearby_distance_constants_witness :
    (∃ l, demoProp1.location = some l ∧
      distance_meters (1, 2) demoProp1 = some (ST_Distance l (1, 2) * 111320) ∧
      ST_Distance l (1, 2) ≤ ((5 / 111.32 : ℚ) : ℝ)) ∧
    (activeWithin (1, 2) (5 / 111.32) demoProp3 = true ↔
      demoProp3.listing_status = "active" ∧
        ST_Distance (1.002, 2) (1, 2) ≤ ((5 / 111.32 : ℚ) : ℝ)) := by
  constructor
  · refine (find_nearby_distance_constants demoDb 2 1 5).1 demoProp1 ?_
    have e : find_nearby_properties demoDb 2 1 5 = [demoProp1, demoProp2] := by
      with_unfolding_all rfl
    rw [e]
    simp
  · exact (find_nearby_distance_constants demoDb 2 1 5).2 demoProp3 (1.002, 2) rfl

/-- Claim C10: the query point is built longitude-first — with the
function arguments `lat` then `lng`, the point is `(lng, lat)` — and the
identical point is used for both the distance expression and the
`ST_DWithin` filter; consequently the head of the result minimizes the
reported distance among all returned rows. -/
theorem find_nearby_query_point (db : List Property) (lat lng radius_km : ℚ) :
    find_nearby_properties db lat lng radius_km
        = findNearbyWith db (lng, lat) (lng, lat) radius_km ∧
    (∀ h p, (find_nearby_properties db lat lng radius_km).head? = some h →
      p ∈ find_nearby_properties db lat lng radius_km →
      reportedDist (lng, lat) h ≤ reportedDist (lng, lat) p) := by
  refine ⟨rfl, fun h p hh hp => ?_⟩
  have hs := find_nearby_sorted_reportedDist db lat lng radius_km
  cases e : find_nearby_properties db lat lng radius_km with
  | nil =>
    rw [e] at hh
    cases hh
  | cons a t =>
    rw [e] at hh hp hs
    cases hh
    rcases List.mem_cons.mp hp with rfl | hpt
    · exact le_refl _
    · exact List.rel_of_sorted_cons hs p hpt

/-- Claim C10 witness: on the demo database the head `demoProp1` has
reported distance at most that of the returned row `demoProp2`. -/
theorem find_nearby_query_point_witness :
    find_nearby_properties demoDb 2 1 5 = findNearbyWith demoDb (1, 2) (1, 2) 5 ∧
    reportedDist (1, 2) demoProp1 ≤ reportedDist (1, 2) demoProp2 := by
  have e : find_nearby_properties demoDb 2 1 5 = [demoProp1, demoProp2] := by
    with_unfolding_all rfl
  refine ⟨(find_nearby_query_point demoDb 2 1 5).1, ?_⟩
  refine (find_nearby_query_point demoDb 2 1 5).2 demoProp1 demoProp2 ?_ ?_
  · rw [e]
    rfl
  · rw [e]
    simp

/-- Claim C1 counterexample: on the demo database the single returned
record carries `average_price = 101`, while the group's full-precision
average is `201/2 = 100.5` — the returned data carries the rounded value,
not the full-precision average. -/
theorem density_rounding_counterexample :
    (analyze_market_density demoDb).map DensityRow.average_price = [101] ∧
    (grid_analysis demoDb).map GridGroup.avg_price = [201 / 2] ∧
    ((101 : ℚ) ≠ 201 / 2) :=
  ⟨by with_unfolding_all rfl, by with_unfolding_all rfl, by norm_num⟩

/-- Claim C1 (amended): each record returned by `analyze_market_density`
carries the group's average price rounded to the nearest whole currency
unit (ties away from zero) — an integer differing from the full-precision
average by at most 1/2; the full-precision average is used only as the
descending sort key, and the printed display shows the same rounded
value the record carries. -/
theorem density_average_price_rounded (db : List Property) :
    ∀ r ∈ analyze_market_density db, ∃ g, g ∈ grid_analysis db ∧
      r = projectGroup g ∧ r.average_price = pgRound g.avg_price ∧
      (∃ z : ℤ, r.average_price = (z : ℚ)) ∧
      |g.avg_price - r.average_price| ≤ 1 / 2 := by
  intro r hr
  obtain ⟨g, hga, hpr, -, -, -, -, hround⟩ := mem_analyze_unpack hr
  refine ⟨g, hga, hpr, hround.symm, ?_, ?_⟩
  · rw [← hround]
    exact pgRound_intCast _
  · rw [← hround]
    exact abs_sub_pgRound _

/-- Claim C1 (amended) witness: instantiated at the demo database's single
returned record. -/
theorem density_average_price_rounded_witness :
    ∃ g, g ∈ grid_analysis demoDb ∧
      DensityRow.mk (some "condo") 2 101 1 2 = projectGroup g ∧
      (DensityRow.mk (some "condo") 2 101 1 2).average_price = pgRound g.avg_price ∧
      (∃ z : ℤ, (DensityRow.mk (some "condo") 2 101 1 2).average_price = (z : ℚ)) ∧
      |g.avg_price - (DensityRow.mk (some "condo") 2 101 1 2).average_price|
        ≤ 1 / 2 := by
  refine density_average_price_rounded demoDb _ ?_
  have e : analyze_market_density demoDb = [DensityRow.mk (some "condo") 2 101 1 2] := by
    with_unfolding_all rfl
  rw [e]
  simp

/-- Claim C2: every record returned by `analyze_market_density` carries in
`(center_lng, center_lat)` the snapped 0.01-degree grid point of its
group: every member of the underlying group has a location whose
coordinates snap exactly to the carried center and lie within half the
grid resolution (0.005 degrees) of it. -/
theorem density_center_coordinates (db : List Property) :
    ∀ r ∈ analyze_market_density db,
      2 ≤ (groupMembers db ((r.center_lng, r.center_lat), r.property_type)).length ∧
      ∀ p ∈ groupMembers db ((r.center_lng, r.center_lat), r.property_type),
        ∃ l, p.location = some l ∧
          snapQ l.1 = r.center_lng ∧ snapQ l.2 = r.center_lat ∧
          |l.1 - r.center_lng| ≤ 1 / 200 ∧ |l.2 - r.center_lat| ≤ 1 / 200 := by
  intro r hr
  obtain ⟨g, hga, hpr, hc, hcell, htype, hcount, -⟩ := mem_analyze_unpack hr
  obtain ⟨hmk, -⟩ := mem_grid_analysis_unpack hga
  constructor
  · rw [← hcell, ← htype]
    have hlen : g.property_count = (groupMembers db (g.grid_cell, g.property_type)).length :=
      congrArg GridGroup.property_count hmk
    rw [← hlen]
    exact hc
  · intro p hp
    obtain ⟨-, -, -, -, l, hl, hsnap⟩ := mem_groupMembers_unpack hp
    have hs1 : snapQ l.1 = r.center_lng := congrArg Prod.fst hsnap
    have hs2 : snapQ l.2 = r.center_lat := congrArg Prod.snd hsnap
    refine ⟨l, hl, hs1, hs2, ?_, ?_⟩
    · rw [← hs1]
      exact abs_sub_snapQ l.1
    · rw [← hs2]
      exact abs_sub_snapQ l.2

/-- Claim C2 witness: on the demo database the returned record carries
center `(1, 2)`; the member `demoProp2` at `(1.001, 2)` snaps to it and
lies within 0.005 degrees of it. -/
theorem density_center_coordinates_witness :
    ∃ l, demoProp2.location = some l ∧
      snapQ l.1 = (1 : ℚ) ∧ snapQ l.2 = (2 : ℚ) ∧
      |l.1 - (1 : ℚ)| ≤ 1 / 200 ∧ |l.2 - (2 : ℚ)| ≤ 1 / 200 := by
  have e : analyze_market_density demoDb = [DensityRow.mk (some "condo") 2 101 1 2] := by
    with_unfolding_all rfl
  have hm : DensityRow.mk (some "condo") 2 101 1 2 ∈ analyze_market_density demoDb := by
    rw [e]
    simp
  have egm : groupMembers demoDb ((1, 2), some "condo") = [demoProp1, demoProp2] := by
    with_unfolding_all rfl
  have hp : demoProp2 ∈ groupMembers demoDb ((1, 2), some "condo") := by
    rw [egm]
    simp
  exact (density_center_coordinates demoDb _ hm).2 demoProp2 hp

/-- Claim C6: every group returned by `analyze_market_density` has at
least 2 underlying rows (counting exactly the active rows with non-null
price and non-null location in its cell/type group), the groups are
sorted by non-increasing average price (both the exact sort key and the
returned rounded values), and at most 10 groups are returned. -/
theorem density_min_count_sorted_limited (db : List Property) :
    (analyze_market_density db).length ≤ 10 ∧
    (∀ r ∈ analyze_market_density db,
      2 ≤ r.property_count ∧
      r.property_count
        = (groupMembers db ((r.center_lng, r.center_lat), r.property_type)).length) ∧
    List.Sorted (fun a b : GridGroup => b.avg_price ≤ a.avg_price) (densitySorted db) ∧
    List.Sorted (fun a b : DensityRow => b.average_price ≤ a.average_price)
      (analyze_market_density db) := by
  refine ⟨?_, ?_, densitySorted_sorted db, ?_⟩
  · simp only [analyze_market_density, List.length_take]
    exact min_le_left _ _
  · intro r hr
    obtain ⟨g, hga, hpr, hc, hcell, htype, hcount, -⟩ := mem_analyze_unpack hr
    obtain ⟨hmk, -⟩ := mem_grid_analysis_unpack hga
    refine ⟨?_, ?_⟩
    · rw [← hcount]
      exact hc
    · rw [← hcount, ← hcell, ← htype]
      exact congrArg GridGroup.property_count hmk
  · have hp := densitySorted_sorted db
    have h1 : List.Pairwise
        (fun a b : GridGroup =>
          (projectGroup b).average_price ≤ (projectGroup a).average_price)
        (densitySorted db) :=
      List.Pairwise.imp (fun hab => pgRound_mono hab) hp
    have h2 : List.Pairwise
        (fun a b : DensityRow => b.average_price ≤ a.average_price)
        ((densitySorted db).map projectGroup) :=
      List.pairwise_map.mpr h1
    exact h2.sublist (List.take_sublist _ _)

/-- Claim C6 witness: instantiated on the demo database, whose single
returned group counts exactly the two active priced located condos. -/
theorem density_min_count_sorted_limited_witness :
    (analyze_market_density demoDb).length ≤ 10 ∧
    2 ≤ (DensityRow.mk (some "condo") 2 101 1 2).property_count ∧
    (DensityRow.mk (some "condo") 2 101 1 2).property_count
      = (groupMembers demoDb ((1, 2), some "condo")).length := by
  have e : analyze_market_density demoDb = [DensityRow.mk (some "condo") 2 101 1 2] := by
    with_unfolding_all rfl
  have hm : DensityRow.mk (some "condo") 2 101 1 2 ∈ analyze_market_density demoDb := by
    rw [e]
    simp
  have h := (density_min_count_sorted_limited demoDb).2.1 _ hm
  exact ⟨(density_min_count_sorted_limited demoDb).1, h.1, h.2⟩
